import Mathlib

/-!
Shallow embedding of the agentcore runtime-adapter scaffolding.

Sources embedded (Python):
- src/assets/python/strands/base/main.py (session agent cache, streaming invoke)
- src/assets/python/langchain_langgraph/base/main.py (model cache, tool combination, invoke)
- src/assets/python/googleadk/base/main.py (credential flag, event normalization, invoke)
- src/assets/python/openaiagents/base/main.py (credential flag, mcp server scope)
- src/assets/python/crewai/base/main.py (per-invocation agent construction)
- src/assets/python/crewai/base/model/load.py (credential sourcing, env var writes)

Python dicts over string keys become association lists, Python values that the
entrypoints inspect become the inductive PyVal, external collaborators (the
identity broker, the orchestration frameworks, the MCP tool server) become
oracle parameters, and module-level mutable globals become explicit state
records threaded through the functions that mutate them.
-/

namespace AgentCore

/-- A Python value as far as the embedded entrypoints inspect one: a string, an
integer, the value None, or some other object identified by a tag. -/
inductive PyVal where
  | str (s : String)
  | int (n : Int)
  | noneV
  | obj (tag : Nat)
  deriving DecidableEq, Repr

/-- A Python dict with string keys, as an association list (first binding wins,
matching dict semantics where keys are unique). -/
abbrev PyDict := List (String × PyVal)

/-- Python d.get(k): the value bound to k, or none when the key is absent. -/
def pyGet (d : PyDict) (k : String) : Option PyVal :=
  (d.find? (fun p => p.1 == k)).map (fun p => p.2)

/-- Python d.get(k, default). -/
def pyGetD (d : PyDict) (k : String) (v : PyVal) : PyVal :=
  (pyGet d k).getD v

/-- A tool object: a name plus a tag standing for the identity of its
implementation (its invocation function), so that two same-named tools from
different sources are distinguishable values. -/
structure Tool where
  name : String
  impl : Nat
  deriving DecidableEq, Repr

/-- True exactly on ok results. -/
def isOkB {α : Type} (x : Except String α) : Bool :=
  match x with
  | .ok _ => true
  | .error _ => false

/-- True exactly on string values. -/
def isStr (v : PyVal) : Bool :=
  match v with
  | .str _ => true
  | _ => false

namespace Strands

/-- The local tool list of strands/base/main.py: tools = [add_numbers]. -/
def tools : List Tool := [⟨"add_numbers", 0⟩]

/-- State of the closure created by agent_factory in the hasMemory variant:
the cache dict maps the composed key string to a constructed Agent, modelled
as a numeric handle. nextHandle supplies fresh handles so distinct
constructions yield distinct (hence distinguishable) agents; buildCount
counts Agent constructions. -/
structure CacheState where
  cache : List (String × Nat)
  nextHandle : Nat
  buildCount : Nat
  deriving DecidableEq, Repr

/-- The key expression of get_or_create_agent: the Python f-string
joining session_id and user_id with a slash. -/
def sessionKey (session_id user_id : String) : String :=
  session_id ++ "/" ++ user_id

/-- Dict membership/lookup on the cache. -/
def lookupKey (c : List (String × Nat)) (k : String) : Option Nat :=
  (c.find? (fun p => p.1 == k)).map (fun p => p.2)

/-- get_or_create_agent from the hasMemory variant of strands/base/main.py:
if the key is absent, construct an Agent (a fresh handle, counted) and insert
it; then return the cached entry for the key. The body contains no await, so
under the cooperative (asyncio) scheduling of the runtime it executes
atomically. -/
def get_or_create_agent (s : CacheState) (session_id user_id : String) :
    Nat × CacheState :=
  match lookupKey s.cache (sessionKey session_id user_id) with
  | some h => (h, s)
  | none =>
      (s.nextHandle,
       ⟨(sessionKey session_id user_id, s.nextHandle) :: s.cache,
        s.nextHandle + 1, s.buildCount + 1⟩)

/-- n sequential calls to get_or_create_agent for the same
(session_id, user_id), collecting the returned handles in order. -/
def runSeq (sid uid : String) : CacheState → Nat → List Nat × CacheState
  | s, 0 => ([], s)
  | s, n + 1 =>
      let p := get_or_create_agent s sid uid
      let q := runSeq sid uid p.2 n
      (p.1 :: q.1, q.2)

/-- Cooperative-concurrency model of N concurrent first requests: each caller
is a thread identified by a Nat; since the closure body suspends nowhere, the
event loop runs each call as one atomic step, and an execution is exactly an
order (schedule) in which the pending calls run. Returns the (thread, handle)
observations in execution order. -/
def runSchedule (sid uid : String) : CacheState → List Nat → List (Nat × Nat) × CacheState
  | s, [] => ([], s)
  | s, t :: rest =>
      let p := get_or_create_agent s sid uid
      let q := runSchedule sid uid p.2 rest
      ((t, p.1) :: q.1, q.2)

/-- The singleton variant (no memory): module global agent, built once. -/
structure SingletonState where
  agentSlot : Option Nat
  nextHandle : Nat
  buildCount : Nat
  deriving DecidableEq, Repr

/-- get_or_create_agent from the non-memory variant of strands/base/main.py. -/
def get_or_create_agent_single (s : SingletonState) : Nat × SingletonState :=
  match s.agentSlot with
  | some a => (a, s)
  | none => (s.nextHandle, ⟨some s.nextHandle, s.nextHandle + 1, s.buildCount + 1⟩)

/-- n sequential calls of the singleton variant. -/
def runSeqSingle : SingletonState → Nat → List Nat × SingletonState
  | s, 0 => ([], s)
  | s, n + 1 =>
      let p := get_or_create_agent_single s
      let q := runSeqSingle p.2 n
      (p.1 :: q.1, q.2)

/-- The argument the strands invoke passes to agent.stream_async: the raw
payload.get with no default, so a missing prompt key is Python None. -/
def promptArg (payload : PyDict) : Option PyVal :=
  pyGet payload "prompt"

/-- The async-for loop body of the strands invoke: for each event dict, yield
event data exactly when the dict has a data key bound to a string. -/
def stream_invoke : List PyDict → List String
  | [] => []
  | e :: rest =>
      match pyGet e "data" with
      | some (.str s) => s :: stream_invoke rest
      | _ => stream_invoke rest

/-- Specification-side description of the forwarded fragments: the text
fragments of the producer events, in producer order. -/
def textFragments (events : List PyDict) : List String :=
  events.filterMap (fun e =>
    match pyGet e "data" with
    | some (.str s) => some s
    | _ => none)

/-- The tool list the strands Agent constructor receives: tools+[mcp_client],
the local tools followed by the mcp client object. -/
def agentTools (mcp_client : Tool) : List Tool :=
  tools ++ [mcp_client]

end Strands

namespace LangChain

/-- The local tool list of langchain_langgraph/base/main.py: [add_numbers]. -/
def tools : List Tool := [⟨"add_numbers", 0⟩]

/-- State of the module globals of langchain_langgraph/base/main.py: the
cached model handle and a count of load_model invocations. Handles are the
load count at load time, so distinct loads yield distinct handles. -/
structure ModelState where
  llmSlot : Option Nat
  loadCount : Nat
  deriving DecidableEq, Repr

/-- get_or_create_model: load the model on first use, then return the cached
handle. -/
def get_or_create_model (s : ModelState) : Nat × ModelState :=
  match s.llmSlot with
  | some m => (m, s)
  | none => (s.loadCount, ⟨some s.loadCount, s.loadCount + 1⟩)

/-- n repeated calls to get_or_create_model, collecting the returned
handles in order. -/
def runGet : ModelState → Nat → List Nat × ModelState
  | s, 0 => ([], s)
  | s, n + 1 =>
      let p := get_or_create_model s
      let q := runGet p.2 n
      (p.1 :: q.1, q.2)

/-- The tool argument of create_react_agent: mcp_tools + tools, the
discovered remote tools followed by the fixed local list. -/
def agentToolArg (mcp_tools : List Tool) : List Tool :=
  mcp_tools ++ tools

/-- The prompt fed to the graph: payload.get with the literal default. -/
def promptOf (payload : PyDict) : PyVal :=
  pyGetD payload "prompt" (.str "What can you help me with?")

/-- The langchain invoke entrypoint. getTools is the outcome of
await mcp_client.get_tools() (ok with the discovered descriptors, or error
when the await raises); ainvoke is the external graph run, taking the model
handle, the tool list and the prompt content and producing the content of the
final message. An uncaught failure of discovery aborts the invocation. -/
def invoke (getTools : Except String (List Tool))
    (ainvoke : Nat → List Tool → PyVal → String)
    (s : ModelState) (payload : PyDict) :
    Except String (PyDict × ModelState) :=
  match getTools with
  | .error e => .error e
  | .ok mcp_tools =>
      let p := get_or_create_model s
      let prompt := promptOf payload
      .ok ([("result", .str (ainvoke p.1 (agentToolArg mcp_tools) prompt))], p.2)

end LangChain

namespace GoogleAdk

/-- State of the googleadk credential globals: the loaded flag, plus a count
of load_model invocations (each is one identity exchange attempt). -/
structure CredState where
  credentialsLoaded : Bool
  attempts : Nat
  deriving DecidableEq, Repr

/-- ensure_credentials_loaded from googleadk/base/main.py (openaiagents has
the identical function). The outcome of the k-th load_model call is given by
the oracle; a raised error propagates and leaves the flag unset, success sets
the flag. Either way one more exchange attempt has been made. -/
def ensure_credentials_loaded (loadOutcome : Nat → Except String Unit)
    (s : CredState) : Except String Unit × CredState :=
  if s.credentialsLoaded then (.ok (), s)
  else
    match loadOutcome s.attempts with
    | .error e => (.error e, ⟨false, s.attempts + 1⟩)
    | .ok _ => (.ok (), ⟨true, s.attempts + 1⟩)

/-- State after n successive calls to ensure_credentials_loaded. -/
def runEnsure (loadOutcome : Nat → Except String Unit) : CredState → Nat → CredState
  | s, 0 => s
  | s, n + 1 => runEnsure loadOutcome (ensure_credentials_loaded loadOutcome s).2 n

/-- The tool argument of the googleadk Agent: mcp_toolset + [add_numbers],
the mcp toolset followed by the local function tool. -/
def agentTools (mcp_toolset : List Tool) : List Tool :=
  mcp_toolset ++ [⟨"add_numbers", 0⟩]

/-- One event of runner.run_async as call_agent_async inspects it:
whether event.is_final_response() holds, and the text
event.content.parts[0].text that is read when it does. -/
structure AdkEvent where
  isFinalResponse : Bool
  text : String
  deriving DecidableEq, Repr

/-- The loop of call_agent_async: final_response starts as None and is
overwritten with the text of every final-response event; the last one wins. -/
def call_agent_async (events : List AdkEvent) : Option String :=
  events.foldl (fun acc e => if e.isFinalResponse then some e.text else acc) none

/-- Specification-side description: the text of the last final-response
event, if any. -/
def lastFinalText (events : List AdkEvent) : Option String :=
  (events.reverse.find? (fun e => e.isFinalResponse)).map (fun e => e.text)

/-- The value bound to result in the dict the googleadk invoke returns:
the final response text as a string, or Python None when call_agent_async
returned None. -/
def invokeResult (events : List AdkEvent) : PyVal :=
  match call_agent_async events with
  | some s => .str s
  | none => .noneV

/-- The prompt of the googleadk invoke: payload.get with the literal
default. -/
def promptOf (payload : PyDict) : PyVal :=
  pyGetD payload "prompt" (.str "What can you help me with?")

end GoogleAdk

namespace CrewAI

/-- The local tool list of crewai/base/main.py: [add_numbers]. -/
def tools : List Tool := [⟨"add_numbers", 0⟩]

/-- The prompt of the crewai invoke: payload.get with the literal default. -/
def promptOf (payload : PyDict) : PyVal :=
  pyGetD payload "prompt" (.str "What can you help me with?")

/-- The crewai invoke entrypoint. Every call constructs a fresh Agent whose
llm is load_model() — the process state is just the running count of
load_model invocations, incremented on every call. kickoffRaw is the external
crew.kickoff, mapping the prompt input to the raw string of its result. -/
def invoke (kickoffRaw : PyVal → String) (loadCount : Nat) (payload : PyDict) :
    PyDict × Nat :=
  ([("result", .str (kickoffRaw (promptOf payload)))], loadCount + 1)

/-- load_model invocation count after serving a list of payloads. -/
def runInvokes (kickoffRaw : PyVal → String) : Nat → List PyDict → Nat
  | c, [] => c
  | c, p :: rest => runInvokes kickoffRaw (invoke kickoffRaw c p).2 rest

end CrewAI

namespace OpenAIAgents

/-- The main function of openaiagents/base/main.py. enterServer is the
outcome of entering the async with mcp_server block (ok with the server
object when it yields, none when it yields a falsy server, error when it
raises); runAgent is the external Runner.run over the active server list and
the query. The except branch logs and re-raises, so any raised error
propagates unchanged. -/
def main (enterServer : Except String (Option Tool))
    (runAgent : List Tool → PyVal → String) (query : PyVal) :
    Except String String :=
  match enterServer with
  | .error e => .error e
  | .ok server =>
      let active_servers := match server with
        | some sv => [sv]
        | none => []
      .ok (runAgent active_servers query)

/-- The prompt of the openaiagents invoke: payload.get with the literal
default. -/
def promptOf (payload : PyDict) : PyVal :=
  pyGetD payload "prompt" (.str "What can you help me with?")

end OpenAIAgents

namespace CrewAIModel

/-- The three identity-broker-backed provider branches of
crewai/base/model/load.py (the Bedrock branch performs no credential
resolution and writes no env var; it is not part of the claims). -/
inductive Provider where
  | anthropic
  | openai
  | gemini
  deriving DecidableEq, Repr

/-- The env var each branch writes before constructing the LLM. -/
def providerEnvKey : Provider → String
  | .anthropic => "ANTHROPIC_API_KEY"
  | .openai => "OPENAI_API_KEY"
  | .gemini => "GEMINI_API_KEY"

/-- The model id each branch passes to the LLM constructor. -/
def providerModelId : Provider → String
  | .anthropic => "anthropic/claude-sonnet-4-5-20250929"
  | .openai => "openai/gpt-4o"
  | .gemini => "gemini/gemini-2.0-flash"

/-- The constructed LLM handle, with the fields the source passes. Only the
Anthropic branch passes max_tokens. -/
structure LLM where
  model : String
  api_key : String
  maxTokens : Option Nat
  deriving DecidableEq, Repr

/-- The process environment, os.environ: a total map from names to an
optional value. -/
def Env : Type := String → Option String

/-- os.environ[k] = v. -/
def envSet (env : Env) (k v : String) : Env :=
  fun n => if n = k then some v else env n

/-- The error message raised when the local-mode variable is missing. -/
def missingMsg (identityEnvVar : String) : String :=
  identityEnvVar ++ " not found. Add " ++ identityEnvVar ++ "=your-key to .env.local"

/-- The private API key getter of each branch. In local-dev mode
(LOCAL_DEV equal to the string 1) the key is read from the configured env
var, and a missing or empty value (Python falsiness of the string) is a
RuntimeError naming the variable; otherwise the identity broker is consulted,
its outcome given by the broker parameter. -/
def get_api_key (identityEnvVar : String) (broker : Except String String)
    (env : Env) : Except String String :=
  if env "LOCAL_DEV" = some "1" then
    match env identityEnvVar with
    | some k => if k = "" then .error (missingMsg identityEnvVar) else .ok k
    | none => .error (missingMsg identityEnvVar)
  else broker

/-- load_model of the Anthropic, OpenAI and Gemini branches: resolve the API
key, write it into the provider env var, and return the LLM handle together
with the updated environment. -/
def load_model (p : Provider) (identityEnvVar : String)
    (broker : Except String String) (env : Env) :
    Except String (LLM × Env) :=
  match get_api_key identityEnvVar broker env with
  | .error e => .error e
  | .ok api_key =>
      .ok ({ model := providerModelId p, api_key := api_key,
             maxTokens := match p with
               | .anthropic => some 4096
               | _ => none },
           envSet env (providerEnvKey p) api_key)

end CrewAIModel

/-! Helper lemmas on the strands session cache. -/

theorem lookupKey_insert_self (c : List (String × Nat)) (k : String) (h : Nat) :
    Strands.lookupKey ((k, h) :: c) k = some h := by
  simp [Strands.lookupKey, List.find?]

theorem runSeq_hit (sid uid : String) (h : Nat) :
    ∀ (n : Nat) (s : Strands.CacheState),
      Strands.lookupKey s.cache (Strands.sessionKey sid uid) = some h →
      Strands.runSeq sid uid s n = (List.replicate n h, s) := by
  intro n
  induction n with
  | zero => intro s _; simp [Strands.runSeq]
  | succ m ih =>
      intro s hs
      simp [Strands.runSeq, Strands.get_or_create_agent, hs, ih s hs,
        List.replicate]

theorem runSchedule_hit (sid uid : String) (h : Nat) :
    ∀ (sched : List Nat) (s : Strands.CacheState),
      Strands.lookupKey s.cache (Strands.sessionKey sid uid) = some h →
      Strands.runSchedule sid uid s sched = (sched.map (fun t => (t, h)), s) := by
  intro sched
  induction sched with
  | nil => intro s _; simp [Strands.runSchedule]
  | cons t rest ih =>
      intro s hs
      simp [Strands.runSchedule, Strands.get_or_create_agent, hs, ih s hs]

theorem runSeqSingle_hit (a : Nat) :
    ∀ (n : Nat) (g : Strands.SingletonState), g.agentSlot = some a →
      Strands.runSeqSingle g n = (List.replicate n a, g) := by
  intro n
  induction n with
  | zero => intro g _; simp [Strands.runSeqSingle]
  | succ m ih =>
      intro g hg
      simp [Strands.runSeqSingle, Strands.get_or_create_agent_single, hg,
        ih g hg, List.replicate]

/-- C2: for every SessionKey (session_id, user_id) not yet cached, any
number n ≥ 1 of sequential get_or_create_agent calls all return the one
handle built by the first call, and the Agent constructor runs exactly once
across them; the singleton (no-memory) variant behaves the same for its one
implicit key. -/
theorem strands_cache_stability (s : Strands.CacheState) (sid uid : String)
    (n : Nat)
    (habs : Strands.lookupKey s.cache (Strands.sessionKey sid uid) = none)
    (hn : 1 ≤ n) :
    (Strands.runSeq sid uid s n).1 = List.replicate n s.nextHandle ∧
    (Strands.runSeq sid uid s n).2.buildCount = s.buildCount + 1 ∧
    ∀ (g : Strands.SingletonState), g.agentSlot = none → ∀ m : Nat, 1 ≤ m →
      (Strands.runSeqSingle g m).1 = List.replicate m g.nextHandle ∧
      (Strands.runSeqSingle g m).2.buildCount = g.buildCount + 1 := by
  refine ⟨?_, ?_, ?_⟩
  · obtain ⟨k, rfl⟩ : ∃ k, n = k + 1 := ⟨n - 1, by omega⟩
    have hstep :
        Strands.get_or_create_agent s sid uid =
          (s.nextHandle,
           ⟨(Strands.sessionKey sid uid, s.nextHandle) :: s.cache,
            s.nextHandle + 1, s.buildCount + 1⟩) := by
      simp [Strands.get_or_create_agent, habs]
    have hrest := runSeq_hit sid uid s.nextHandle k
      ⟨(Strands.sessionKey sid uid, s.nextHandle) :: s.cache,
        s.nextHandle + 1, s.buildCount + 1⟩
      (lookupKey_insert_self s.cache (Strands.sessionKey sid uid) s.nextHandle)
    simp [Strands.runSeq, hstep, hrest, List.replicate]
  · obtain ⟨k, rfl⟩ : ∃ k, n = k + 1 := ⟨n - 1, by omega⟩
    have hstep :
        Strands.get_or_create_agent s sid uid =
          (s.nextHandle,
           ⟨(Strands.sessionKey sid uid, s.nextHandle) :: s.cache,
            s.nextHandle + 1, s.buildCount + 1⟩) := by
      simp [Strands.get_or_create_agent, habs]
    have hrest := runSeq_hit sid uid s.nextHandle k
      ⟨(Strands.sessionKey sid uid, s.nextHandle) :: s.cache,
        s.nextHandle + 1, s.buildCount + 1⟩
      (lookupKey_insert_self s.cache (Strands.sessionKey sid uid) s.nextHandle)
    simp [Strands.runSeq, hstep, hrest]
  · intro g hg m hm
    obtain ⟨k, rfl⟩ : ∃ k, m = k + 1 := ⟨m - 1, by omega⟩
    have hstep :
        Strands.get_or_create_agent_single g =
          (g.nextHandle, ⟨some g.nextHandle, g.nextHandle + 1, g.buildCount + 1⟩) := by
      simp [Strands.get_or_create_agent_single, hg]
    have hrest := runSeqSingle_hit g.nextHandle k
      ⟨some g.nextHandle, g.nextHandle + 1, g.buildCount + 1⟩ rfl
    constructor
    · simp [Strands.runSeqSingle, hstep, hrest, List.replicate]
    · simp [Strands.runSeqSingle, hstep, hrest]

/-- Witness for strands_cache_stability at the empty cache, key s/u, n = 3. -/
theorem strands_cache_stability_witness :
    Strands.lookupKey ([] : List (String × Nat)) (Strands.sessionKey "s" "u") = none ∧
    (Strands.runSeq "s" "u" ⟨[], 0, 0⟩ 3).1 = List.replicate 3 0 ∧
    (Strands.runSeq "s" "u" ⟨[], 0, 0⟩ 3).2.buildCount = 0 + 1 :=
  ⟨rfl,
   (strands_cache_stability ⟨[], 0, 0⟩ "s" "u" 3 rfl (by decide)).1,
   (strands_cache_stability ⟨[], 0, 0⟩ "s" "u" 3 rfl (by decide)).2.1⟩

/-- C1: cooperative single-flight. The get_or_create_agent closure body has
no await, so under the asyncio event loop each pending first-request runs as
one atomic step and an execution is an arbitrary schedule of the N pending
calls. For every nonempty schedule over a key not yet cached, every caller
observes the one handle built by whichever call ran first, and the Agent
constructor runs exactly once. -/
theorem strands_single_flight (s : Strands.CacheState) (sid uid : String)
    (sched : List Nat)
    (habs : Strands.lookupKey s.cache (Strands.sessionKey sid uid) = none)
    (hne : sched ≠ []) :
    (Strands.runSchedule sid uid s sched).1 =
      sched.map (fun t => (t, s.nextHandle)) ∧
    (Strands.runSchedule sid uid s sched).2.buildCount = s.buildCount + 1 := by
  obtain ⟨t, rest, rfl⟩ : ∃ t rest, sched = t :: rest := by
    cases sched with
    | nil => exact absurd rfl hne
    | cons t rest => exact ⟨t, rest, rfl⟩
  have hstep :
      Strands.get_or_create_agent s sid uid =
        (s.nextHandle,
         ⟨(Strands.sessionKey sid uid, s.nextHandle) :: s.cache,
          s.nextHandle + 1, s.buildCount + 1⟩) := by
    simp [Strands.get_or_create_agent, habs]
  have hrest := runSchedule_hit sid uid s.nextHandle rest
    ⟨(Strands.sessionKey sid uid, s.nextHandle) :: s.cache,
      s.nextHandle + 1, s.buildCount + 1⟩
    (lookupKey_insert_self s.cache (Strands.sessionKey sid uid) s.nextHandle)
  constructor
  · simp [Strands.runSchedule, hstep, hrest]
  · simp [Strands.runSchedule, hstep, hrest]

/-- Witness for strands_single_flight: three concurrent callers 0, 1, 2 on a
fresh key all observe handle 0 and one construction happens. -/
theorem strands_single_flight_witness :
    Strands.lookupKey ([] : List (String × Nat)) (Strands.sessionKey "s" "u") = none ∧
    (Strands.runSchedule "s" "u" ⟨[], 0, 0⟩ [0, 1, 2]).1 = [(0, 0), (1, 0), (2, 0)] ∧
    (Strands.runSchedule "s" "u" ⟨[], 0, 0⟩ [0, 1, 2]).2.buildCount = 0 + 1 :=
  ⟨rfl,
   (strands_single_flight ⟨[], 0, 0⟩ "s" "u" [0, 1, 2] rfl (by decide)).1,
   (strands_single_flight ⟨[], 0, 0⟩ "s" "u" [0, 1, 2] rfl (by decide)).2⟩

/-! Helper lemmas on the credential resolvers. -/

theorem runGet_hit (h : Nat) :
    ∀ (n : Nat) (s : LangChain.ModelState), s.llmSlot = some h →
      LangChain.runGet s n = (List.replicate n h, s) := by
  intro n
  induction n with
  | zero => intro s _; simp [LangChain.runGet]
  | succ m ih =>
      intro s hs
      simp [LangChain.runGet, LangChain.get_or_create_model, hs, ih s hs,
        List.replicate]

theorem runEnsure_loaded (o : Nat → Except String Unit) :
    ∀ (n : Nat) (a : Nat),
      GoogleAdk.runEnsure o ⟨true, a⟩ n = ⟨true, a⟩ := by
  intro n
  induction n with
  | zero => intro a; simp [GoogleAdk.runEnsure]
  | succ m ih =>
      intro a
      simp [GoogleAdk.runEnsure, GoogleAdk.ensure_credentials_loaded, ih]

theorem runInvokes_count (kick : PyVal → String) :
    ∀ (ps : List PyDict) (c : Nat),
      CrewAI.runInvokes kick c ps = c + ps.length := by
  intro ps
  induction ps with
  | nil => intro c; simp [CrewAI.runInvokes]
  | cons p rest ih =>
      intro c
      simp [CrewAI.runInvokes, CrewAI.invoke, ih]
      omega

/-- C3 counterexample: the crewai invoke constructs its Agent with
llm=load_model() on every call, so two invocations perform two credential
resolutions — more than once per process. -/
theorem crewai_reloads_per_invocation :
    CrewAI.runInvokes (fun _ => "ok") 0 [[], []] = 2 ∧ ¬(2 ≤ 1) :=
  ⟨rfl, by decide⟩

/-- C3 amended: the langchain get_or_create_model and the
googleadk/openaiagents ensure_credentials_loaded perform the resolution at
most once per process — after the first successful call every later call
returns the cached handle (respectively skips the exchange) — while the
crewai variant performs load_model on every single invocation. -/
theorem credential_single_load_amended (ms : LangChain.ModelState)
    (n a m c : Nat) (kick : PyVal → String) (ps : List PyDict)
    (hllm : ms.llmSlot = none) (hn : 1 ≤ n) (hm : 1 ≤ m) :
    (LangChain.runGet ms n).1 = List.replicate n ms.loadCount ∧
    (LangChain.runGet ms n).2.loadCount = ms.loadCount + 1 ∧
    GoogleAdk.runEnsure (fun _ => .ok ()) ⟨false, a⟩ m = ⟨true, a + 1⟩ ∧
    CrewAI.runInvokes kick c ps = c + ps.length := by
  have hlg : LangChain.runGet ms n =
      (List.replicate n ms.loadCount, ⟨some ms.loadCount, ms.loadCount + 1⟩) := by
    obtain ⟨k, rfl⟩ : ∃ k, n = k + 1 := ⟨n - 1, by omega⟩
    have hstep : LangChain.get_or_create_model ms =
        (ms.loadCount, ⟨some ms.loadCount, ms.loadCount + 1⟩) := by
      simp [LangChain.get_or_create_model, hllm]
    have hrest := runGet_hit ms.loadCount k ⟨some ms.loadCount, ms.loadCount + 1⟩ rfl
    simp [LangChain.runGet, hstep, hrest, List.replicate]
  refine ⟨by simp [hlg], by simp [hlg], ?_, runInvokes_count kick ps c⟩
  obtain ⟨k, rfl⟩ : ∃ k, m = k + 1 := ⟨m - 1, by omega⟩
  have hstep : GoogleAdk.ensure_credentials_loaded (fun _ => .ok ())
      ⟨false, a⟩ = (.ok (), ⟨true, a + 1⟩) := by
    simp [GoogleAdk.ensure_credentials_loaded]
  simp [GoogleAdk.runEnsure, hstep, runEnsure_loaded]

/-- Witness for credential_single_load_amended: two langchain calls, two
googleadk calls, two crewai invocations. -/
theorem credential_single_load_amended_witness :
    (LangChain.ModelState.mk none 0).llmSlot = none ∧
    (LangChain.runGet ⟨none, 0⟩ 2).1 = List.replicate 2 0 ∧
    (LangChain.runGet ⟨none, 0⟩ 2).2.loadCount = 0 + 1 ∧
    GoogleAdk.runEnsure (fun _ => .ok ()) ⟨false, 0⟩ 2 = ⟨true, 0 + 1⟩ ∧
    CrewAI.runInvokes (fun _ => "ok") 0 [[], [("prompt", PyVal.str "hi")]] = 0 + 2 :=
  ⟨rfl,
   (credential_single_load_amended ⟨none, 0⟩ 2 0 2 0 (fun _ => "ok")
      [[], [("prompt", PyVal.str "hi")]] rfl (by decide) (by decide)).1,
   (credential_single_load_amended ⟨none, 0⟩ 2 0 2 0 (fun _ => "ok")
      [[], [("prompt", PyVal.str "hi")]] rfl (by decide) (by decide)).2.1,
   (credential_single_load_amended ⟨none, 0⟩ 2 0 2 0 (fun _ => "ok")
      [[], [("prompt", PyVal.str "hi")]] rfl (by decide) (by decide)).2.2.1,
   (credential_single_load_amended ⟨none, 0⟩ 2 0 2 0 (fun _ => "ok")
      [[], [("prompt", PyVal.str "hi")]] rfl (by decide) (by decide)).2.2.2⟩

/-- Oracle whose first identity exchange fails and whose later ones
succeed. -/
def failThenOk : Nat → Except String Unit :=
  fun n => if n = 0 then .error "exchange failed" else .ok ()

/-- C4 counterexample: after the first resolution fails, the second call to
ensure_credentials_loaded performs the exchange again (the attempt count
reaches 2) and succeeds — the failure was neither permanent nor re-raised
from a cache. -/
theorem credential_failure_retried :
    (GoogleAdk.ensure_credentials_loaded failThenOk ⟨false, 0⟩).1 =
      .error "exchange failed" ∧
    (GoogleAdk.ensure_credentials_loaded failThenOk
      (GoogleAdk.ensure_credentials_loaded failThenOk ⟨false, 0⟩).2).1 = .ok () ∧
    (GoogleAdk.ensure_credentials_loaded failThenOk
      (GoogleAdk.ensure_credentials_loaded failThenOk ⟨false, 0⟩).2).2.attempts = 2 :=
  ⟨rfl, rfl, rfl⟩

/-- C4 amended: a failed resolution is raised to its caller but never
cached: the loaded flag stays unset, and the very next call performs the
exchange again (the attempt count advances on every call made while
unloaded), so a later attempt may succeed or fail on its own. -/
theorem credential_failure_not_cached (o : Nat → Except String Unit)
    (s : GoogleAdk.CredState) (e : String)
    (hflag : s.credentialsLoaded = false)
    (hfail : o s.attempts = .error e) :
    (GoogleAdk.ensure_credentials_loaded o s).1 = .error e ∧
    (GoogleAdk.ensure_credentials_loaded o s).2 =
      ⟨false, s.attempts + 1⟩ ∧
    (GoogleAdk.ensure_credentials_loaded o
      (GoogleAdk.ensure_credentials_loaded o s).2).2.attempts =
      s.attempts + 2 := by
  have h1 : GoogleAdk.ensure_credentials_loaded o s =
      (.error e, ⟨false, s.attempts + 1⟩) := by
    simp [GoogleAdk.ensure_credentials_loaded, hflag, hfail]
  refine ⟨by simp [h1], by simp [h1], ?_⟩
  rw [h1]
  cases h2 : o (s.attempts + 1) <;>
    simp [GoogleAdk.ensure_credentials_loaded, h2]

/-- Witness for credential_failure_not_cached at the failThenOk oracle. -/
theorem credential_failure_not_cached_witness :
    (GoogleAdk.CredState.mk false 0).credentialsLoaded = false ∧
    failThenOk 0 = .error "exchange failed" ∧
    (GoogleAdk.ensure_credentials_loaded failThenOk ⟨false, 0⟩).2 = ⟨false, 0 + 1⟩ ∧
    (GoogleAdk.ensure_credentials_loaded failThenOk
      (GoogleAdk.ensure_credentials_loaded failThenOk ⟨false, 0⟩).2).2.attempts = 0 + 2 :=
  ⟨rfl, rfl,
   (credential_failure_not_cached failThenOk ⟨false, 0⟩ "exchange failed" rfl rfl).2.1,
   (credential_failure_not_cached failThenOk ⟨false, 0⟩ "exchange failed" rfl rfl).2.2⟩

/-- C5 counterexample: a remotely discovered tool named add_numbers colliding
with the local add_numbers is not rejected — the combined list passed to
create_react_agent contains the name twice, the remote definition included. -/
theorem tool_merge_keeps_duplicates :
    ((LangChain.agentToolArg [⟨"add_numbers", 1⟩, ⟨"remote_only", 2⟩]).filter
        (fun t => t.name == "add_numbers")).length = 2 ∧
    (⟨"add_numbers", 1⟩ : Tool) ∈
      LangChain.agentToolArg [⟨"add_numbers", 1⟩, ⟨"remote_only", 2⟩] := by
  constructor
  · rfl
  · simp [LangChain.agentToolArg, LangChain.tools]

/-- C5 amended: the tool collections are plain list concatenations with no
name-based deduplication — discovered/remote part first and local part second
in langchain and googleadk, local tools first and then the mcp client in
strands; every tool name occurs exactly as often as in the two sources
combined, so a name present in both keeps both definitions. -/
theorem tool_merge_is_concatenation (mcp_tools mcp_toolset : List Tool)
    (mcp_client : Tool) (nm : String) :
    LangChain.agentToolArg mcp_tools = mcp_tools ++ LangChain.tools ∧
    ((LangChain.agentToolArg mcp_tools).filter (fun t => t.name == nm)).length =
      (mcp_tools.filter (fun t => t.name == nm)).length +
        (LangChain.tools.filter (fun t => t.name == nm)).length ∧
    GoogleAdk.agentTools mcp_toolset = mcp_toolset ++ [⟨"add_numbers", 0⟩] ∧
    Strands.agentTools mcp_client = Strands.tools ++ [mcp_client] := by
  refine ⟨rfl, ?_, rfl, rfl⟩
  simp [LangChain.agentToolArg, List.filter_append]

/-- C6 counterexample: when remote tool discovery raises, the langchain
invoke propagates the failure instead of degrading to the local tool set. -/
theorem discovery_failure_fatal :
    LangChain.invoke (.error "tool server unreachable") (fun _ _ _ => "answer")
        ⟨none, 0⟩ [] = .error "tool server unreachable" ∧
    isOkB (LangChain.invoke (.error "tool server unreachable")
        (fun _ _ _ => "answer") ⟨none, 0⟩ []) = false :=
  ⟨rfl, rfl⟩

/-- C6 amended: a remote tool discovery failure is not caught: the langchain
invoke and the openaiagents main return the raised error unchanged (the
openaiagents except branch logs and re-raises), so the invocation fails; the
agent proceeds with only local tools in exactly one situation — the
openaiagents server context yielding a falsy server instead of raising. -/
theorem discovery_failure_propagates (e : String)
    (ainvoke : Nat → List Tool → PyVal → String) (ms : LangChain.ModelState)
    (payload : PyDict) (runAgent : List Tool → PyVal → String) (q : PyVal) :
    LangChain.invoke (.error e) ainvoke ms payload = .error e ∧
    OpenAIAgents.main (.error e) runAgent q = .error e ∧
    OpenAIAgents.main (.ok none) runAgent q = .ok (runAgent [] q) :=
  ⟨rfl, rfl, rfl⟩

/-- C7: streaming normalization of the strands invoke: the yielded fragments
are exactly, in order and unchanged, the text fragments of the producer
events — the events whose data field holds a string; status/control events
are never forwarded, and the output is a finite sequence ending with the
producer (no trailing sentinel). -/
theorem strands_streaming_normalization (events : List PyDict) :
    Strands.stream_invoke events = Strands.textFragments events ∧
    (Strands.stream_invoke events).length ≤ events.length := by
  have h : ∀ evs : List PyDict,
      Strands.stream_invoke evs = Strands.textFragments evs := by
    intro evs
    induction evs with
    | nil => rfl
    | cons e rest ih =>
        cases hd : pyGet e "data" with
        | none =>
            simp [Strands.stream_invoke, Strands.textFragments, hd, ih,
              List.filterMap_cons]
        | some v =>
            cases v <;>
              simp [Strands.stream_invoke, Strands.textFragments, hd, ih,
                List.filterMap_cons]
  refine ⟨h events, ?_⟩
  rw [h events]
  exact List.length_filterMap_le _ _

/-- C8 counterexample: the strands invoke hands stream_async the raw
payload.get result, so a payload without a prompt field reaches the
orchestration call as Python None instead of the default prompt literal. -/
theorem strands_prompt_no_default :
    Strands.promptArg [] = none ∧
    (none : Option PyVal) ≠ some (.str "What can you help me with?") :=
  ⟨rfl, by decide⟩

/-- C8 amended: the crewai, googleadk, langchain and openaiagents variants
default a missing prompt to the literal prompt; the strands variant applies
no default and passes the missing value through as None. -/
theorem prompt_default_amended (payload : PyDict)
    (h : pyGet payload "prompt" = none) :
    CrewAI.promptOf payload = .str "What can you help me with?" ∧
    GoogleAdk.promptOf payload = .str "What can you help me with?" ∧
    LangChain.promptOf payload = .str "What can you help me with?" ∧
    OpenAIAgents.promptOf payload = .str "What can you help me with?" ∧
    Strands.promptArg payload = none := by
  simp [CrewAI.promptOf, GoogleAdk.promptOf, LangChain.promptOf,
    OpenAIAgents.promptOf, Strands.promptArg, pyGetD, h]

/-- Witness for prompt_default_amended at a payload carrying only a
user_id. -/
theorem prompt_default_amended_witness :
    pyGet [("user_id", PyVal.str "u")] "prompt" = none ∧
    CrewAI.promptOf [("user_id", PyVal.str "u")] =
      .str "What can you help me with?" ∧
    Strands.promptArg [("user_id", PyVal.str "u")] = none :=
  ⟨rfl,
   (prompt_default_amended [("user_id", PyVal.str "u")] rfl).1,
   (prompt_default_amended [("user_id", PyVal.str "u")] rfl).2.2.2.2⟩

/-! Helper lemmas on the googleadk event loop. -/

theorem call_agent_async_foldl :
    ∀ (events : List GoogleAdk.AdkEvent) (acc : Option String),
      events.foldl (fun a e => if e.isFinalResponse then some e.text else a) acc =
        (match events.reverse.find? (fun e => e.isFinalResponse) with
         | some ev => some ev.text
         | none => acc) := by
  intro events
  induction events with
  | nil => intro acc; rfl
  | cons e rest ih =>
      intro acc
      simp only [List.foldl_cons, List.reverse_cons]
      rw [ih, List.find?_append]
      cases hf : rest.reverse.find? (fun x => x.isFinalResponse) with
      | some ev => simp [Option.or]
      | none =>
          cases he : e.isFinalResponse <;>
            simp [Option.or, List.find?, he]

theorem call_agent_async_eq_lastFinalText (events : List GoogleAdk.AdkEvent) :
    GoogleAdk.call_agent_async events = GoogleAdk.lastFinalText events := by
  rw [GoogleAdk.call_agent_async, call_agent_async_foldl]
  cases hf : events.reverse.find? (fun e => e.isFinalResponse) <;>
    simp [GoogleAdk.lastFinalText, hf]

/-- C9 counterexample: an orchestration event stream with no final-response
event makes the googleadk invoke bind result to Python None, which is not a
string. -/
theorem googleadk_result_not_string :
    GoogleAdk.invokeResult [⟨false, "partial text"⟩] = PyVal.noneV ∧
    isStr (GoogleAdk.invokeResult [⟨false, "partial text"⟩]) = false :=
  ⟨rfl, rfl⟩

/-- C9 amended: single-shot invocations return a dict binding result; in the
googleadk variant the value is the text of the last final-response event — a
string when the stream holds such an event, and Python None (not a string)
when it holds none — while the crewai variant always binds result to the raw
string of the crew result. -/
theorem single_shot_result_shape (events : List GoogleAdk.AdkEvent)
    (kick : PyVal → String) (c : Nat) (payload : PyDict) :
    GoogleAdk.invokeResult events =
      (match GoogleAdk.lastFinalText events with
       | some s => PyVal.str s
       | none => PyVal.noneV) ∧
    pyGet (CrewAI.invoke kick c payload).1 "result" =
      some (.str (kick (CrewAI.promptOf payload))) := by
  constructor
  · rw [GoogleAdk.invokeResult, call_agent_async_eq_lastFinalText]
  · rfl

/-- C10: every successful load_model call of the Anthropic, OpenAI and
Gemini branches writes the resolved API key into exactly the env var of its
provider — ANTHROPIC_API_KEY, OPENAI_API_KEY or GEMINI_API_KEY — leaving
every other environment variable unchanged, and returns the handle carrying
that same key. -/
theorem load_model_env_effect (p : CrewAIModel.Provider)
    (identityEnvVar : String) (broker : Except String String)
    (env : CrewAIModel.Env) (llm : CrewAIModel.LLM) (env2 : CrewAIModel.Env)
    (h : CrewAIModel.load_model p identityEnvVar broker env = .ok (llm, env2)) :
    env2 (CrewAIModel.providerEnvKey p) = some llm.api_key ∧
    (∀ nm : String, nm ≠ CrewAIModel.providerEnvKey p → env2 nm = env nm) ∧
    CrewAIModel.get_api_key identityEnvVar broker env = .ok llm.api_key := by
  cases hk : CrewAIModel.get_api_key identityEnvVar broker env with
  | error e => simp [CrewAIModel.load_model, hk] at h
  | ok k =>
      simp only [CrewAIModel.load_model, hk, Except.ok.injEq, Prod.mk.injEq] at h
      obtain ⟨hllm, henv⟩ := h
      subst henv
      subst hllm
      refine ⟨?_, ?_, ?_⟩
      · simp [CrewAIModel.envSet]
      · intro nm hnm
        simp [CrewAIModel.envSet, hnm]
      · rfl

/-- Concrete local-dev environment for the load_model witness. -/
def devEnv : CrewAIModel.Env :=
  fun n =>
    if n = "LOCAL_DEV" then some "1"
    else if n = "MY_PROVIDER_KEY" then some "sk-test" else none

/-- Witness for load_model_env_effect: the Anthropic branch in local-dev
mode writes ANTHROPIC_API_KEY and leaves PATH untouched. -/
theorem load_model_env_effect_witness :
    CrewAIModel.load_model .anthropic "MY_PROVIDER_KEY" (.error "no broker")
        devEnv =
      .ok ({ model := "anthropic/claude-sonnet-4-5-20250929",
             api_key := "sk-test", maxTokens := some 4096 },
           CrewAIModel.envSet devEnv "ANTHROPIC_API_KEY" "sk-test") ∧
    CrewAIModel.envSet devEnv "ANTHROPIC_API_KEY" "sk-test" "ANTHROPIC_API_KEY" =
      some "sk-test" ∧
    CrewAIModel.envSet devEnv "ANTHROPIC_API_KEY" "sk-test" "PATH" =
      devEnv "PATH" :=
  ⟨rfl,
   (load_model_env_effect .anthropic "MY_PROVIDER_KEY" (.error "no broker")
      devEnv _ _ rfl).1,
   (load_model_env_effect .anthropic "MY_PROVIDER_KEY" (.error "no broker")
      devEnv _ _ rfl).2.1 "PATH" (by decide)⟩

end AgentCore
